import Mathlib

/-!
Verification of the meal-tracker core: a shallow embedding of the
virtual-calendar-clock state machine, the GMT+3 day-bucketing function,
the daily/period aggregator, the goal arithmetic and the estimation
error path, together with theorems settling the specification claims.

Conventions of the embedding:
* JS millisecond timestamps are `Nat` (every `Date.now()` value is a
  non-negative integer number of milliseconds since the epoch).
* `getGMT3DateString` returns the `YYYY-MM-DD` rendering of the civil
  day at UTC+3; two timestamps get equal strings iff they have the same
  civil-day index `(t + offset) / 86400000`, and the string order is the
  index order, so the key is embedded as that index (`dayKey`).
* JS numbers holding integer state (`dayOffset`, `dayCount`) are `Int`;
  nutritional quantities are `Rat` (all arithmetic performed on them by
  the source is exact in double precision at the inputs considered).
* `Math.round` is `jsRound`: JS rounds half toward positive infinity,
  which is `fun q => Int.floor (q + 1/2)` on all inputs.
-/

namespace MealTracker

/-- `86400000`, milliseconds per day (`msPerDay` in the source). -/
def msPerDay : Nat := 86400000

/-- `GMT_OFFSET_HOURS = 3` from the source. -/
def gmtOffsetHours : Nat := 3

/-- `GMT_OFFSET_HOURS * 60 * 60 * 1000`, the offset added before bucketing. -/
def gmtOffsetMs : Nat := gmtOffsetHours * 60 * 60 * 1000

/-- Embedding of `getGMT3DateString`: the civil-day index at UTC+3 of a
timestamp, `new Date(timestamp + offset).toISOString().split('T')[0]`
rendered as the day index `(t + offset) / 86400000` (the YYYY-MM-DD
string is an injective, order-preserving rendering of this index). -/
def dayKey (t : Nat) : Nat := (t + gmtOffsetMs) / msPerDay

/-- `t` is a civil-day boundary at UTC+3: midnight of civil time. -/
def isBoundary (t : Nat) : Prop := (t + gmtOffsetMs) % msPerDay = 0

instance (t : Nat) : Decidable (isBoundary t) := by
  unfold isBoundary; infer_instance

/-- Two timestamps fall within the same `[00:00, 24:00)` window of civil
time at UTC+3: some civil day `d` contains both. -/
def inSameCivilWindow (t1 t2 : Nat) : Prop :=
  ∃ d : Nat, d * msPerDay ≤ t1 + gmtOffsetMs ∧ t1 + gmtOffsetMs < (d + 1) * msPerDay ∧
    d * msPerDay ≤ t2 + gmtOffsetMs ∧ t2 + gmtOffsetMs < (d + 1) * msPerDay

/-- The virtual-calendar-clock state: `dayOffset`, `dayCount` (JS numbers,
integral) and `lastRealDateStr` (stored as its civil-day index). -/
structure ClockState where
  dayOffset : Int
  dayCount : Int
  lastRealDateStr : Nat
deriving DecidableEq, Repr

/-- Initial state from the source's `useState` defaults:
`dayOffset = 0`, `dayCount = 1`, `lastRealDateStr = getGMT3DateString(Date.now())`. -/
def initialClockState (now : Nat) : ClockState :=
  { dayOffset := 0, dayCount := 1, lastRealDateStr := dayKey now }

/-- Embedding of `checkDate` (the reconciliation check): compute the real
day key of `now`; if it differs from `lastRealDateStr`, record it and
either absorb one unit of `dayOffset` (`Math.max(0, prev - 1)`) or, when
no manual advance is pending, increment `dayCount`. -/
def checkDate (s : ClockState) (now : Nat) : ClockState :=
  let nowStr := dayKey now
  if nowStr ≠ s.lastRealDateStr then
    { lastRealDateStr := nowStr
      dayOffset := if 0 < s.dayOffset then max 0 (s.dayOffset - 1) else s.dayOffset
      dayCount := if 0 < s.dayOffset then s.dayCount else s.dayCount + 1 }
  else
    s

/-- Embedding of `handleManualEndDay`: advance `dayOffset` and `dayCount`
by one, leaving the real-date tracker untouched. -/
def handleManualEndDay (s : ClockState) : ClockState :=
  { s with dayOffset := s.dayOffset + 1, dayCount := s.dayCount + 1 }

/-- Embedding of `resetDayCounter`: `dayCount = 1`, `dayOffset = 0`,
`lastRealDateStr = getGMT3DateString(Date.now())`. -/
def resetDayCounter (now : Nat) : ClockState :=
  { dayOffset := 0, dayCount := 1, lastRealDateStr := dayKey now }

/-- Embedding of `getVirtualNow`: real time advanced by `dayOffset` days. -/
def getVirtualNow (s : ClockState) (now : Nat) : Int :=
  (now : Int) + s.dayOffset * (msPerDay : Int)

/-! ## Data model of logged events (`types.ts`) -/

/-- `Macronutrients` from `types.ts`. -/
structure Macronutrients where
  protein : ℚ
  carbs : ℚ
  fat : ℚ
deriving DecidableEq, Repr

/-- `MealItem` from `types.ts`. -/
structure MealItem where
  name : String
  calories : ℚ
deriving DecidableEq, Repr

/-- `MealAnalysis` from `types.ts`. -/
structure MealAnalysis where
  mealName : String
  items : List MealItem
  totalCalories : ℚ
  macronutrients : Macronutrients
  confidenceScore : ℚ
deriving DecidableEq, Repr

/-- `LoggedMeal` from `types.ts` (`id` is embedded as a `Nat` identifier). -/
structure LoggedMeal extends MealAnalysis where
  id : Nat
  timestamp : Nat
  imageUrl : Option String
deriving DecidableEq, Repr

/-- `WaterLog` from `types.ts`. -/
structure WaterLog where
  id : Nat
  timestamp : Nat
  amount : ℚ
deriving DecidableEq, Repr

/-! ## Water handling (`App` component) -/

/-- Embedding of `handleAddWater`: append one new log with the given
amount and the virtual-now timestamp (`[...prev, newLog]`). -/
def handleAddWater (logs : List WaterLog) (id ts : Nat) (amount : ℚ) : List WaterLog :=
  logs ++ [{ id := id, timestamp := ts, amount := amount }]

/-- Embedding of `todayWater`: filter the logs bucketed to the current
virtual day and reduce by adding amounts, starting from `0`. -/
def todayWater (logs : List WaterLog) (day : Nat) : ℚ :=
  (logs.filter (fun w => dayKey w.timestamp = day)).foldl (fun acc w => acc + w.amount) 0

/-- The minus button in `Dashboard.tsx` is disabled exactly when the
displayed total satisfies `todayWater <= 0`. -/
def minusDisabled (total : ℚ) : Bool := total ≤ 0

/-! ## Daily/period aggregation (`History.tsx`) -/

/-- One per-day entry of the `dailyStats` record. -/
structure DayStats where
  calories : ℚ
  protein : ℚ
  carbs : ℚ
  fat : ℚ
  water : ℚ
deriving DecidableEq, Repr

/-- The `{ calories: 0, protein: 0, carbs: 0, fat: 0, water: 0 }` default. -/
def emptyStats : DayStats := { calories := 0, protein := 0, carbs := 0, fat := 0, water := 0 }

/-- One step of the `meals.forEach` loop of `dailyStats`: create the
day's entry if absent, then add the meal's calories and macros. -/
def addMealStats (f : Nat → Option DayStats) (m : LoggedMeal) : Nat → Option DayStats :=
  fun k =>
    if k = dayKey m.timestamp then
      let s := (f k).getD emptyStats
      some { s with calories := s.calories + m.totalCalories
                    protein := s.protein + m.macronutrients.protein
                    carbs := s.carbs + m.macronutrients.carbs
                    fat := s.fat + m.macronutrients.fat }
    else f k

/-- One step of the `waterLogs.forEach` loop of `dailyStats`. -/
def addWaterStats (f : Nat → Option DayStats) (w : WaterLog) : Nat → Option DayStats :=
  fun k =>
    if k = dayKey w.timestamp then
      let s := (f k).getD emptyStats
      some { s with water := s.water + w.amount }
    else f k

/-- Embedding of the `dailyStats` record of `History.tsx`: starting from
the empty record, fold the meals and then the water logs, keyed by the
civil day of each event's stored timestamp. -/
def dailyStats (meals : List LoggedMeal) (water : List WaterLog) : Nat → Option DayStats :=
  water.foldl addWaterStats (meals.foldl addMealStats (fun _ => none))

/-- The `dailyStats[d] || { ...zeros }` lookup with all-zero default. -/
def dayStatsOrZero (meals : List LoggedMeal) (water : List WaterLog) (d : Nat) : DayStats :=
  (dailyStats meals water d).getD emptyStats

/-- One iteration of the `renderChartView` loop: if the day's calories
are strictly positive, accumulate them and count the day as tracked. -/
def chartStep (stats : Nat → Option DayStats) (acc : ℚ × Nat) (d : Nat) : ℚ × Nat :=
  let c := ((stats d).getD emptyStats).calories
  if 0 < c then (acc.1 + c, acc.2 + 1) else acc

/-- `(totalCals, daysTracked)` after the `renderChartView` loop over the
period's day keys. -/
def chartTotals (stats : Nat → Option DayStats) (keys : List Nat) : ℚ × Nat :=
  keys.foldl (chartStep stats) (0, 0)

/-- The day keys visited by `renderChartView(days)`: `i` runs from
`days - 1` down to `0` and the visited day is `endDay - i`
(`getTargetDate(-i)` under the GMT+3 day-index encoding). -/
def periodKeys (endDay days : Nat) : List Nat :=
  (List.range days).reverse.map (fun i => endDay - i)

/-- Specification-side view of the tracked days of a period: the day
keys whose (zero-defaulted) calorie total is strictly positive. -/
def trackedDays (stats : Nat → Option DayStats) (keys : List Nat) : List Nat :=
  keys.filter fun d => 0 < ((stats d).getD emptyStats).calories

/-- Specification-side view of the period's total: the sum of the
calorie totals of the tracked days only. -/
def trackedCalsSum (stats : Nat → Option DayStats) (keys : List Nat) : ℚ :=
  ((trackedDays stats keys).map fun d => ((stats d).getD emptyStats).calories).sum

/-- JS `Math.round`: round half toward positive infinity. -/
def jsRound (q : ℚ) : ℤ := ⌊q + 1/2⌋

/-- The `avgCals` value of `renderChartView`:
`daysTracked > 0 ? Math.round(totalCals / daysTracked) : 0`. -/
def renderChartAvg (stats : Nat → Option DayStats) (endDay days : Nat) : ℤ :=
  let totals := chartTotals stats (periodKeys endDay days)
  if 0 < totals.2 then jsRound (totals.1 / (totals.2 : ℚ)) else 0

/-! ## Goal arithmetic (`calculateRecommendedCalories`) -/

/-- `ActivityLevel` from `types.ts`. -/
inductive ActivityLevel where
  | sedentary
  | light
  | moderate
  | active
  | very_active
deriving DecidableEq, Repr

/-- `Gender` from `types.ts`. -/
inductive Gender where
  | male
  | female
deriving DecidableEq, Repr

/-- `GoalType` from `types.ts`. -/
inductive GoalType where
  | lose
  | maintain
  | gain
deriving DecidableEq, Repr

/-- `UserGoal` from `types.ts`. -/
structure UserGoal where
  dailyCalories : ℚ
  dailyWater : ℚ
  currentWeight : ℚ
  targetWeight : ℚ
  height : ℚ
  age : ℚ
  gender : Gender
  activityLevel : ActivityLevel
  goalType : GoalType
deriving DecidableEq, Repr

/-- The `activityMultipliers` record of `calculateRecommendedCalories`. -/
def activityMultipliers : ActivityLevel → ℚ
  | .sedentary => 1.2
  | .light => 1.375
  | .moderate => 1.55
  | .active => 1.725
  | .very_active => 1.9

/-- The `bmr` value computed by `calculateRecommendedCalories`:
`10*weight + 6.25*height - 5*age`, then `+5` for male / `-161` otherwise. -/
def computeBMR (g : UserGoal) : ℚ :=
  let bmr := 10 * g.currentWeight + 6.25 * g.height - 5 * g.age
  if g.gender = Gender.male then bmr + 5 else bmr - 161

/-- Embedding of `calculateRecommendedCalories`: BMR times the activity
multiplier, minus 500 for a `lose` goal, plus 500 for a `gain` goal,
rounded with `Math.round`. -/
def calculateRecommendedCalories (g : UserGoal) : ℤ :=
  let tdee := computeBMR g * activityMultipliers g.activityLevel
  let afterLose := if g.goalType = GoalType.lose then tdee - 500 else tdee
  let recommended := if g.goalType = GoalType.gain then afterLose + 500 else afterLose
  jsRound recommended

/-- The worked example's biometric inputs: weight 70 kg, height 170 cm,
age 30, male, moderate activity, maintain goal (other fields at the
source's defaults). -/
def exampleGoal : UserGoal :=
  { dailyCalories := 2200, dailyWater := 2500, currentWeight := 70, targetWeight := 70
    height := 170, age := 30, gender := Gender.male
    activityLevel := ActivityLevel.moderate, goalType := GoalType.maintain }

/-! ## Estimation service and the failure path (`geminiService.ts`, `AddMeal`) -/

/-- The shape of the collaborator reply consumed by the service: an
optional `text` body. -/
structure GenResponse where
  text : Option String
deriving DecidableEq, Repr

/-- Embedding of `analyzeMealImage`: the collaborator call either throws
(`Except.error`, rethrown by the `catch`) or returns a response; a
response without text throws `"No response text from Gemini"`; otherwise
the result is whatever `JSON.parse` yields (success or a propagated
parse failure). -/
def analyzeMealImage (call : Except String GenResponse)
    (parse : String → Except String MealAnalysis) : Except String MealAnalysis :=
  match call with
  | .error e => .error e
  | .ok r =>
    match r.text with
    | some txt => parse txt
    | none => .error "No response text from Gemini"

/-- Embedding of `analyzeMealText`, identical in control flow to
`analyzeMealImage`. -/
def analyzeMealText (call : Except String GenResponse)
    (parse : String → Except String MealAnalysis) : Except String MealAnalysis :=
  match call with
  | .error e => .error e
  | .ok r =>
    match r.text with
    | some txt => parse txt
    | none => .error "No response text from Gemini"

/-- The state relevant to the save path: the app's meal log plus the
`analysis` state of the `AddMeal` component. -/
structure TrackerState where
  meals : List LoggedMeal
  analysis : Option MealAnalysis
deriving DecidableEq, Repr

/-- Outcome of `AddMeal.analyzeImage` / `handleTextAnalyze` on the
component state: `setAnalysis(null)` first, then `setAnalysis(result)`
only on success (the `catch` branch merely alerts). The meal log is
never touched. -/
def applyAnalysisResult (s : TrackerState) (r : Except String MealAnalysis) : TrackerState :=
  { s with analysis := match r with
      | .ok a => some a
      | .error _ => none }

/-- `handleSaveMeal`: build a `LoggedMeal` from an analysis and prepend
it (`[newMeal, ...prev]`). -/
def mkLoggedMeal (a : MealAnalysis) (id ts : Nat) (url : Option String) : LoggedMeal :=
  { toMealAnalysis := a, id := id, timestamp := ts, imageUrl := url }

/-- The save interaction: the save button is rendered only when
`analysis` is non-null, so clicking save appends a meal exactly when an
analysis is present; with no analysis nothing happens. -/
def clickSave (s : TrackerState) (id ts : Nat) (url : Option String) : TrackerState :=
  match s.analysis with
  | some a => { s with meals := mkLoggedMeal a id ts url :: s.meals }
  | none => s

/-! ## Concrete demonstration values used by witnesses -/

/-- A demonstration meal logged at timestamp 0 (civil day 0 at UTC+3). -/
def demoMeal : LoggedMeal :=
  { mealName := "Lunch", items := [{ name := "Rice", calories := 600 }]
    totalCalories := 600, macronutrients := { protein := 30, carbs := 50, fat := 20 }
    confidenceScore := 0.9, id := 0, timestamp := 0, imageUrl := none }

/-- A demonstration water log of 100 ml at timestamp 0 (civil day 0). -/
def demoWaterLog : WaterLog := { id := 0, timestamp := 0, amount := 100 }

/-- A parser that fails on every input, exercising the unparseable-result
failure mode. -/
def demoFailingParse : String → Except String MealAnalysis :=
  fun _ => .error "bad JSON"

/-! ## Theorems -/

/-- Helper: closed form of one reconciliation step. When the real day
key is unchanged the state is untouched; otherwise the key is recorded
and either one unit of positive `dayOffset` is absorbed or `dayCount`
is incremented. -/
theorem checkDate_spec (s : ClockState) (now : Nat) :
    checkDate s now =
      if dayKey now = s.lastRealDateStr then s
      else
        { dayOffset := if 0 < s.dayOffset then s.dayOffset - 1 else s.dayOffset
          dayCount := if 0 < s.dayOffset then s.dayCount else s.dayCount + 1
          lastRealDateStr := dayKey now } := by
  unfold checkDate
  by_cases h : dayKey now = s.lastRealDateStr
  · simp [h]
  · simp only [h, ne_eq, not_false_eq_true, if_true, if_false, ite_true, ite_false]
    by_cases h2 : 0 < s.dayOffset
    · simp [h2, ClockState.mk.injEq, max_eq_right (by omega : (0 : ℤ) ≤ s.dayOffset - 1)]
    · simp [h2, ClockState.mk.injEq]

/-- C1: across a real civil-day boundary, one reconciliation check
records the new real day key and then either absorbs exactly one unit of
a positive `dayOffset` (staying nonnegative, `dayCount` untouched) or,
with `dayOffset = 0`, increments `dayCount` and keeps `dayOffset` at 0;
in particular three successive boundary checks from `dayOffset = 3`
drain the offset to 0 without changing `dayCount`. -/
theorem checkDate_boundary_step (s : ClockState) (now : Nat)
    (h : dayKey now ≠ s.lastRealDateStr)
    (s3 : ClockState) (t1 t2 t3 : Nat)
    (h3 : s3.dayOffset = 3)
    (hk1 : dayKey t1 = s3.lastRealDateStr + 1)
    (hk2 : dayKey t2 = s3.lastRealDateStr + 2)
    (hk3 : dayKey t3 = s3.lastRealDateStr + 3) :
    (checkDate s now).lastRealDateStr = dayKey now ∧
    (0 < s.dayOffset →
      (checkDate s now).dayOffset = s.dayOffset - 1 ∧
      0 ≤ (checkDate s now).dayOffset ∧
      (checkDate s now).dayCount = s.dayCount) ∧
    (s.dayOffset = 0 →
      (checkDate s now).dayCount = s.dayCount + 1 ∧
      (checkDate s now).dayOffset = 0) ∧
    (checkDate (checkDate (checkDate s3 t1) t2) t3).dayOffset = 0 ∧
    (checkDate (checkDate (checkDate s3 t1) t2) t3).dayCount = s3.dayCount := by
  have e1 : checkDate s3 t1 =
      { dayOffset := 2, dayCount := s3.dayCount, lastRealDateStr := s3.lastRealDateStr + 1 } := by
    rw [checkDate_spec]
    simp only [hk1, h3]
    rw [if_neg (by omega)]
    norm_num
  have e2 : checkDate (checkDate s3 t1) t2 =
      { dayOffset := 1, dayCount := s3.dayCount, lastRealDateStr := s3.lastRealDateStr + 2 } := by
    rw [e1, checkDate_spec]
    simp only [hk2]
    rw [if_neg (by omega)]
    norm_num
  have e3 : checkDate (checkDate (checkDate s3 t1) t2) t3 =
      { dayOffset := 0, dayCount := s3.dayCount, lastRealDateStr := s3.lastRealDateStr + 3 } := by
    rw [e2, checkDate_spec]
    simp only [hk3]
    rw [if_neg (by omega)]
    norm_num
  rw [checkDate_spec, if_neg h]
  refine ⟨rfl, fun hpos => ?_, fun hzero => ?_, by rw [e3], by rw [e3]⟩
  · simp only [if_pos hpos]
    refine ⟨?_, ?_, ?_⟩ <;> first | trivial | omega
  · have hnp : ¬ 0 < s.dayOffset := by omega
    simp only [if_neg hnp]
    refine ⟨?_, ?_⟩ <;> first | trivial | omega

/-- C1 witness: the general boundary rule instantiated at the concrete
state `(dayOffset = 0, dayCount = 1, lastRealDateStr = day 0)` with a
check on real day 1, and the decay scenario from `dayOffset = 3`. -/
theorem checkDate_boundary_step_witness :
    (dayKey msPerDay ≠ 0) ∧
    ((⟨3, 7, 0⟩ : ClockState).dayOffset = 3) ∧
    (dayKey msPerDay = 0 + 1) ∧
    (dayKey (2 * msPerDay) = 0 + 2) ∧
    (dayKey (3 * msPerDay) = 0 + 3) ∧
    ((checkDate ⟨0, 1, 0⟩ msPerDay).lastRealDateStr = dayKey msPerDay ∧
      (0 < (⟨0, 1, 0⟩ : ClockState).dayOffset →
        (checkDate ⟨0, 1, 0⟩ msPerDay).dayOffset = (⟨0, 1, 0⟩ : ClockState).dayOffset - 1 ∧
        0 ≤ (checkDate ⟨0, 1, 0⟩ msPerDay).dayOffset ∧
        (checkDate ⟨0, 1, 0⟩ msPerDay).dayCount = (⟨0, 1, 0⟩ : ClockState).dayCount) ∧
      ((⟨0, 1, 0⟩ : ClockState).dayOffset = 0 →
        (checkDate ⟨0, 1, 0⟩ msPerDay).dayCount = (⟨0, 1, 0⟩ : ClockState).dayCount + 1 ∧
        (checkDate ⟨0, 1, 0⟩ msPerDay).dayOffset = 0) ∧
      (checkDate (checkDate (checkDate ⟨3, 7, 0⟩ msPerDay) (2 * msPerDay)) (3 * msPerDay)).dayOffset = 0 ∧
      (checkDate (checkDate (checkDate ⟨3, 7, 0⟩ msPerDay) (2 * msPerDay)) (3 * msPerDay)).dayCount =
        (⟨3, 7, 0⟩ : ClockState).dayCount) := by
  refine ⟨by decide, by decide, by decide, by decide, by decide, ?_⟩
  exact checkDate_boundary_step ⟨0, 1, 0⟩ msPerDay (by decide) ⟨3, 7, 0⟩
    msPerDay (2 * msPerDay) (3 * msPerDay) (by decide) (by decide) (by decide) (by decide)

/-- Helper: every timestamp lies inside the civil-day window of its own
day key. -/
theorem dayKey_window (t : Nat) :
    dayKey t * msPerDay ≤ t + gmtOffsetMs ∧ t + gmtOffsetMs < (dayKey t + 1) * msPerDay := by
  simp only [dayKey, msPerDay, gmtOffsetMs, gmtOffsetHours]
  omega

/-- Helper: a timestamp inside the window of day `d` has day key `d`. -/
theorem dayKey_eq_of_window (t d : Nat)
    (h1 : d * msPerDay ≤ t + gmtOffsetMs) (h2 : t + gmtOffsetMs < (d + 1) * msPerDay) :
    dayKey t = d := by
  simp only [dayKey, msPerDay, gmtOffsetMs, gmtOffsetHours] at *
  omega

/-- C2: the GMT+3 bucketing is correct: two timestamps share a day key
iff they lie in the same `[00:00, 24:00)` civil window at UTC+3, the key
is monotone in the timestamp, the key is unchanged by a 1 ms step that
does not land on a civil-day boundary, and the key changes from the last
millisecond of a day to the boundary itself. -/
theorem dayKey_bucketing (t1 t2 u1 u2 u b : Nat)
    (hle : u1 ≤ u2) (hnb : ¬ isBoundary (u + 1)) (hb : isBoundary b) :
    (dayKey t1 = dayKey t2 ↔ inSameCivilWindow t1 t2) ∧
    dayKey u1 ≤ dayKey u2 ∧
    dayKey u = dayKey (u + 1) ∧
    dayKey (b - 1) ≠ dayKey b := by
  refine ⟨⟨fun h => ?_, fun h => ?_⟩, ?_, ?_, ?_⟩
  · refine ⟨dayKey t1, (dayKey_window t1).1, (dayKey_window t1).2, ?_, ?_⟩
    · rw [h]; exact (dayKey_window t2).1
    · rw [h]; exact (dayKey_window t2).2
  · obtain ⟨d, h1, h2, h3, h4⟩ := h
    rw [dayKey_eq_of_window t1 d h1 h2, dayKey_eq_of_window t2 d h3 h4]
  · simp only [dayKey, msPerDay, gmtOffsetMs, gmtOffsetHours]
    omega
  · simp only [isBoundary, msPerDay, gmtOffsetMs, gmtOffsetHours] at hnb
    simp only [dayKey, msPerDay, gmtOffsetMs, gmtOffsetHours]
    omega
  · simp only [isBoundary, msPerDay, gmtOffsetMs, gmtOffsetHours] at hb
    simp only [dayKey, msPerDay, gmtOffsetMs, gmtOffsetHours]
    omega

/-- C2 witness: the bucketing theorem at two timestamps of day 0, the
monotone pair `(0, 5)`, the non-boundary step at `t = 0`, and the first
real boundary `75600000` (21:00 UTC = midnight at UTC+3). -/
theorem dayKey_bucketing_witness :
    ((0 : Nat) ≤ 5) ∧ (¬ isBoundary (0 + 1)) ∧ isBoundary 75600000 ∧
    ((dayKey 17 = dayKey 42 ↔ inSameCivilWindow 17 42) ∧
      dayKey 0 ≤ dayKey 5 ∧
      dayKey 0 = dayKey (0 + 1) ∧
      dayKey (75600000 - 1) ≠ dayKey 75600000) := by
  exact ⟨by omega, by decide, by decide,
    dayKey_bucketing 17 42 0 5 0 75600000 (by omega) (by decide) (by decide)⟩

/-- C4: `dayOffset ≥ 0` in every reachable state: it holds initially and
is preserved by the reconciliation check, the manual end-day advance and
the reset. -/
theorem dayOffset_nonneg_invariant (now : Nat) (s : ClockState) (t : Nat)
    (h : 0 ≤ s.dayOffset) :
    (initialClockState now).dayOffset = 0 ∧
    0 ≤ (checkDate s t).dayOffset ∧
    0 ≤ (handleManualEndDay s).dayOffset ∧
    0 ≤ (resetDayCounter t).dayOffset := by
  refine ⟨rfl, ?_, ?_, ?_⟩
  · rw [checkDate_spec]
    by_cases h1 : dayKey t = s.lastRealDateStr
    · simpa [h1] using h
    · simp only [if_neg h1]
      by_cases h2 : 0 < s.dayOffset
      · simp only [if_pos h2]; omega
      · simp only [if_neg h2]; exact h
  · simp only [handleManualEndDay]; omega
  · simp [resetDayCounter]

/-- C4 witness: the invariant theorem at `now = 0`, the initial state at
time 0, and a check at time `msPerDay`. -/
theorem dayOffset_nonneg_invariant_witness :
    (0 : ℤ) ≤ (initialClockState 0).dayOffset ∧
    ((initialClockState 0).dayOffset = 0 ∧
      0 ≤ (checkDate (initialClockState 0) msPerDay).dayOffset ∧
      0 ≤ (handleManualEndDay (initialClockState 0)).dayOffset ∧
      0 ≤ (resetDayCounter msPerDay).dayOffset) := by
  exact ⟨by decide, dayOffset_nonneg_invariant 0 (initialClockState 0) msPerDay (by decide)⟩

/-- C5: reconciliation is idempotent within a civil day: a second check
with the same real day key does not change the state further, and a
check whose observed day key equals `lastRealDateStr` is a no-op. -/
theorem checkDate_idempotent (s : ClockState) (t1 t2 t : Nat)
    (hk : dayKey t1 = dayKey t2)
    (he : dayKey t = s.lastRealDateStr) :
    checkDate (checkDate s t1) t2 = checkDate s t1 ∧ checkDate s t = s := by
  constructor
  · have hlast : (checkDate s t1).lastRealDateStr = dayKey t1 := by
      rw [checkDate_spec]
      by_cases h1 : dayKey t1 = s.lastRealDateStr
      · simp [h1]
      · simp [h1]
    rw [checkDate_spec (checkDate s t1) t2, if_pos (by rw [hlast, hk])]
  · rw [checkDate_spec, if_pos he]

/-- C5 witness: two checks at distinct timestamps of real day 0 starting
from `lastRealDateStr = day 5`, and a no-op check at a day-0 timestamp
from `lastRealDateStr = day 0`. -/
theorem checkDate_idempotent_witness :
    (dayKey 0 = dayKey 1) ∧ (dayKey 0 = (⟨2, 9, dayKey 0⟩ : ClockState).lastRealDateStr) ∧
    (checkDate (checkDate ⟨2, 9, dayKey 0⟩ 0) 1 = checkDate ⟨2, 9, dayKey 0⟩ 0 ∧
      checkDate ⟨2, 9, dayKey 0⟩ 0 = ⟨2, 9, dayKey 0⟩) := by
  exact ⟨by decide, by decide,
    checkDate_idempotent ⟨2, 9, dayKey 0⟩ 0 1 0 (by decide) (by decide)⟩

/-- C6: the manual advance increments `dayOffset` and `dayCount` by one
and leaves `lastRealDateStr` unchanged, for every prior state (the
`(0, N)` to `(1, N + 1)` case is the instance `dayOffset = 0`). -/
theorem handleManualEndDay_effect (s : ClockState) :
    handleManualEndDay s =
      { dayOffset := s.dayOffset + 1
        dayCount := s.dayCount + 1
        lastRealDateStr := s.lastRealDateStr } := by
  rfl

/-- Helper: the worked example's BMR and rounded target as the code
computes them. -/
theorem exampleGoal_values :
    computeBMR exampleGoal = 1617.5 ∧ calculateRecommendedCalories exampleGoal = 2507 := by
  have hbmr : computeBMR exampleGoal = 1617.5 := by
    simp only [computeBMR, exampleGoal]
    norm_num
  refine ⟨hbmr, ?_⟩
  norm_num [calculateRecommendedCalories, computeBMR, exampleGoal, activityMultipliers, jsRound]
  rw [if_neg (by decide), if_neg (by decide)]
  norm_num

/-- C3 counterexample: for weight 70 kg, height 170 cm, age 30, male,
moderate activity and a maintain goal the code does not return 2467
kcal (its BMR is 1617.5, not 1591.5, so it returns 2507). -/
theorem calculateRecommendedCalories_not_2467 :
    calculateRecommendedCalories exampleGoal ≠ 2467 := by
  rw [exampleGoal_values.2]
  decide

/-- C3 amended: for weight 70 kg, height 170 cm, age 30, male, moderate
activity (multiplier 1.55) and a maintain goal, the function computes
BMR = 10×70 + 6.25×170 − 5×30 + 5 = 1617.5 and returns
round(1617.5 × 1.55) = round(2507.125) = 2507 kcal. -/
theorem calculateRecommendedCalories_example :
    computeBMR exampleGoal = 1617.5 ∧ calculateRecommendedCalories exampleGoal = 2507 :=
  exampleGoal_values

/-- C9: a multi-day gap (`k ≥ 2` boundaries) is absorbed by a single
reconciliation: the first check jumps `lastRealDateStr` to the current
day key while applying the one-day rule once, later same-day checks are
no-ops, so with a 2-day gap an offset of 2 remains positive and a count
reaches 2 instead of the 3 produced by per-boundary iteration. -/
theorem checkDate_multi_day_gap (s : ClockState) (t : Nat) (k : Nat) (t' : Nat)
    (hk2 : 2 ≤ k)
    (hkey : dayKey t = s.lastRealDateStr + k)
    (ht' : dayKey t' = dayKey t) :
    (checkDate s t).lastRealDateStr = dayKey t ∧
    (0 < s.dayOffset →
      (checkDate s t).dayOffset = s.dayOffset - 1 ∧ (checkDate s t).dayCount = s.dayCount) ∧
    (s.dayOffset = 0 →
      (checkDate s t).dayCount = s.dayCount + 1 ∧ (checkDate s t).dayOffset = 0) ∧
    checkDate (checkDate s t) t' = checkDate s t ∧
    (checkDate ⟨2, 5, 0⟩ (2 * msPerDay)).dayOffset = 1 ∧
    (checkDate ⟨0, 1, 0⟩ (2 * msPerDay)).dayCount = 2 ∧
    (checkDate (checkDate ⟨0, 1, 0⟩ msPerDay) (2 * msPerDay)).dayCount = 3 ∧
    (checkDate ⟨0, 1, 0⟩ (2 * msPerDay)).dayCount <
      (checkDate (checkDate ⟨0, 1, 0⟩ msPerDay) (2 * msPerDay)).dayCount := by
  have hne : dayKey t ≠ s.lastRealDateStr := by omega
  have hlast : (checkDate s t).lastRealDateStr = dayKey t := by
    rw [checkDate_spec, if_neg hne]
  have hsame : checkDate (checkDate s t) t' = checkDate s t := by
    rw [checkDate_spec (checkDate s t) t', if_pos (by rw [hlast, ht'])]
  have c1 : (checkDate ⟨2, 5, 0⟩ (2 * msPerDay)).dayOffset = 1 := by
    rw [checkDate_spec, if_neg (by decide)]
    norm_num
  have c2 : (checkDate ⟨0, 1, 0⟩ (2 * msPerDay)).dayCount = 2 := by
    rw [checkDate_spec, if_neg (by decide)]
    norm_num
  have e1 : checkDate ⟨0, 1, 0⟩ msPerDay = ⟨0, 2, dayKey msPerDay⟩ := by
    rw [checkDate_spec, if_neg (by decide)]
    norm_num
  have c3 : (checkDate (checkDate ⟨0, 1, 0⟩ msPerDay) (2 * msPerDay)).dayCount = 3 := by
    rw [e1, checkDate_spec, if_neg (by decide)]
    norm_num
  refine ⟨hlast, fun hpos => ?_, fun hzero => ?_, hsame, c1, c2, c3, by rw [c2, c3]; norm_num⟩
  · rw [checkDate_spec, if_neg hne]
    simp only [if_pos hpos]
    refine ⟨?_, ?_⟩ <;> first | trivial | omega
  · rw [checkDate_spec, if_neg hne]
    have hnp : ¬ 0 < s.dayOffset := by omega
    simp only [if_neg hnp]
    refine ⟨?_, ?_⟩ <;> first | trivial | omega

/-- C9 witness: the gap theorem at a state on day 0 with `dayOffset = 2`
checked at a timestamp two civil days later, twice. -/
theorem checkDate_multi_day_gap_witness :
    (2 ≤ 2) ∧ (dayKey (2 * msPerDay) = (⟨2, 5, 0⟩ : ClockState).lastRealDateStr + 2) ∧
    ((checkDate ⟨2, 5, 0⟩ (2 * msPerDay)).lastRealDateStr = dayKey (2 * msPerDay) ∧
      (0 < (⟨2, 5, 0⟩ : ClockState).dayOffset →
        (checkDate ⟨2, 5, 0⟩ (2 * msPerDay)).dayOffset = (⟨2, 5, 0⟩ : ClockState).dayOffset - 1 ∧
        (checkDate ⟨2, 5, 0⟩ (2 * msPerDay)).dayCount = (⟨2, 5, 0⟩ : ClockState).dayCount) ∧
      ((⟨2, 5, 0⟩ : ClockState).dayOffset = 0 →
        (checkDate ⟨2, 5, 0⟩ (2 * msPerDay)).dayCount = (⟨2, 5, 0⟩ : ClockState).dayCount + 1 ∧
        (checkDate ⟨2, 5, 0⟩ (2 * msPerDay)).dayOffset = 0) ∧
      checkDate (checkDate ⟨2, 5, 0⟩ (2 * msPerDay)) (2 * msPerDay) =
        checkDate ⟨2, 5, 0⟩ (2 * msPerDay) ∧
      (checkDate ⟨2, 5, 0⟩ (2 * msPerDay)).dayOffset = 1 ∧
      (checkDate ⟨0, 1, 0⟩ (2 * msPerDay)).dayCount = 2 ∧
      (checkDate (checkDate ⟨0, 1, 0⟩ msPerDay) (2 * msPerDay)).dayCount = 3 ∧
      (checkDate ⟨0, 1, 0⟩ (2 * msPerDay)).dayCount <
        (checkDate (checkDate ⟨0, 1, 0⟩ msPerDay) (2 * msPerDay)).dayCount) := by
  exact ⟨by decide, by decide,
    checkDate_multi_day_gap ⟨2, 5, 0⟩ (2 * msPerDay) 2 (2 * msPerDay)
      (by decide) (by decide) rfl⟩

/-- Helper: the meals fold of `dailyStats` leaves a day's entry alone
when no meal buckets to that day. -/
theorem foldl_addMealStats_apply (meals : List LoggedMeal) (f : Nat → Option DayStats) (d : Nat)
    (h : ∀ m ∈ meals, dayKey m.timestamp ≠ d) :
    meals.foldl addMealStats f d = f d := by
  induction meals generalizing f with
  | nil => rfl
  | cons m ms ih =>
    rw [List.foldl_cons, ih _ (fun x hx => h x (List.mem_cons_of_mem _ hx))]
    simp only [addMealStats]
    rw [if_neg (Ne.symm (h m (List.mem_cons_self m ms)))]

/-- Helper: the water fold of `dailyStats` leaves a day's entry alone
when no water log buckets to that day. -/
theorem foldl_addWaterStats_apply (water : List WaterLog) (f : Nat → Option DayStats) (d : Nat)
    (h : ∀ w ∈ water, dayKey w.timestamp ≠ d) :
    water.foldl addWaterStats f d = f d := by
  induction water generalizing f with
  | nil => rfl
  | cons w ws ih =>
    rw [List.foldl_cons, ih _ (fun x hx => h x (List.mem_cons_of_mem _ hx))]
    simp only [addWaterStats]
    rw [if_neg (Ne.symm (h w (List.mem_cons_self w ws)))]

/-- Helper: a day to which no event buckets has no `dailyStats` entry. -/
theorem dailyStats_eq_none (meals : List LoggedMeal) (water : List WaterLog) (d : Nat)
    (hm : ∀ m ∈ meals, dayKey m.timestamp ≠ d)
    (hw : ∀ w ∈ water, dayKey w.timestamp ≠ d) :
    dailyStats meals water d = none := by
  unfold dailyStats
  rw [foldl_addWaterStats_apply water _ d hw, foldl_addMealStats_apply meals _ d hm]

/-- Helper: the chart loop accumulates exactly the calories of the
strictly-positive days and counts exactly those days. -/
theorem chartTotals_foldl (stats : Nat → Option DayStats) (keys : List Nat) (acc : ℚ × Nat) :
    keys.foldl (chartStep stats) acc =
      (acc.1 + trackedCalsSum stats keys, acc.2 + (trackedDays stats keys).length) := by
  induction keys generalizing acc with
  | nil => simp [trackedCalsSum, trackedDays]
  | cons k ks ih =>
    rw [List.foldl_cons, ih]
    simp only [chartStep, trackedCalsSum, trackedDays, List.filter_cons]
    by_cases h : 0 < ((stats k).getD emptyStats).calories
    · simp [h]
      constructor
      · ring
      · omega
    · simp [h]

/-- C7: a calendar day to which no event buckets yields the all-zero
totals rather than an error, and the period average divides the sum of
the strictly-positive days' calories only by the number of such tracked
days, returning 0 when no day of the period is tracked. -/
theorem aggregation_zero_day_avg (meals : List LoggedMeal) (water : List WaterLog) (d : Nat)
    (hm : ∀ m ∈ meals, dayKey m.timestamp ≠ d)
    (hw : ∀ w ∈ water, dayKey w.timestamp ≠ d)
    (endDay days : Nat) :
    dayStatsOrZero meals water d = emptyStats ∧
    renderChartAvg (dailyStats meals water) endDay days =
      (if 0 < (trackedDays (dailyStats meals water) (periodKeys endDay days)).length then
        jsRound (trackedCalsSum (dailyStats meals water) (periodKeys endDay days) /
          ((trackedDays (dailyStats meals water) (periodKeys endDay days)).length : ℚ))
      else 0) := by
  constructor
  · rw [dayStatsOrZero, dailyStats_eq_none meals water d hm hw]
    rfl
  · rw [renderChartAvg, chartTotals, chartTotals_foldl]
    simp

/-- C7 witness: one meal of 600 kcal on civil day 0, no water, the empty
day 5, and the 2-day period ending at day 1. -/
theorem aggregation_zero_day_avg_witness :
    dayStatsOrZero [demoMeal] [] 5 = emptyStats ∧
    renderChartAvg (dailyStats [demoMeal] []) 1 2 =
      (if 0 < (trackedDays (dailyStats [demoMeal] []) (periodKeys 1 2)).length then
        jsRound (trackedCalsSum (dailyStats [demoMeal] []) (periodKeys 1 2) /
          ((trackedDays (dailyStats [demoMeal] []) (periodKeys 1 2)).length : ℚ))
      else 0) :=
  aggregation_zero_day_avg [demoMeal] [] 5
    (by intro m hm; simp only [List.mem_singleton] at hm; subst hm; decide)
    (by intro w hw; simp at hw) 1 2

/-- C8: every estimation failure (thrown call, absent response text,
unparseable result) is propagated by `analyzeMealImage` and
`analyzeMealText` as a failure of the single collaborator call (no
retry), and on the failure path the meal log is unchanged and no save
can append a meal (the analysis state is cleared). -/
theorem estimation_failure_propagation (e : String)
    (parse : String → Except String MealAnalysis) (txt pe : String)
    (hp : parse txt = .error pe)
    (st : TrackerState) (msg : String) (id ts : Nat) (url : Option String) :
    analyzeMealImage (.error e) parse = .error e ∧
    analyzeMealText (.error e) parse = .error e ∧
    analyzeMealImage (.ok ⟨none⟩) parse = .error "No response text from Gemini" ∧
    analyzeMealText (.ok ⟨none⟩) parse = .error "No response text from Gemini" ∧
    analyzeMealImage (.ok ⟨some txt⟩) parse = .error pe ∧
    analyzeMealText (.ok ⟨some txt⟩) parse = .error pe ∧
    (applyAnalysisResult st (.error msg)).meals = st.meals ∧
    (applyAnalysisResult st (.error msg)).analysis = none ∧
    clickSave (applyAnalysisResult st (.error msg)) id ts url =
      applyAnalysisResult st (.error msg) := by
  refine ⟨rfl, rfl, rfl, rfl, ?_, ?_, rfl, rfl, rfl⟩
  · simp [analyzeMealImage, hp]
  · simp [analyzeMealText, hp]

/-- C8 witness: the failure theorem at a failing parser, an empty state
and concrete error strings. -/
theorem estimation_failure_propagation_witness :
    demoFailingParse "not json" = .error "bad JSON" ∧
    (analyzeMealImage (.error "network down") demoFailingParse = .error "network down" ∧
      analyzeMealText (.error "network down") demoFailingParse = .error "network down" ∧
      analyzeMealImage (.ok ⟨none⟩) demoFailingParse = .error "No response text from Gemini" ∧
      analyzeMealText (.ok ⟨none⟩) demoFailingParse = .error "No response text from Gemini" ∧
      analyzeMealImage (.ok ⟨some "not json"⟩) demoFailingParse = .error "bad JSON" ∧
      analyzeMealText (.ok ⟨some "not json"⟩) demoFailingParse = .error "bad JSON" ∧
      (applyAnalysisResult ⟨[], none⟩ (.error "boom")).meals = (⟨[], none⟩ : TrackerState).meals ∧
      (applyAnalysisResult ⟨[], none⟩ (.error "boom")).analysis = none ∧
      clickSave (applyAnalysisResult ⟨[], none⟩ (.error "boom")) 3 4 none =
        applyAnalysisResult ⟨[], none⟩ (.error "boom")) :=
  ⟨rfl, estimation_failure_propagation "network down" demoFailingParse "not json" "bad JSON"
    rfl ⟨[], none⟩ "boom" 3 4 none⟩

/-- Helper: folding addition of amounts equals the initial value plus
the sum of amounts. -/
theorem water_foldl_amount (l : List WaterLog) (init : ℚ) :
    l.foldl (fun acc w => acc + w.amount) init = init + (l.map WaterLog.amount).sum := by
  induction l generalizing init with
  | nil => simp
  | cons w ws ih =>
    rw [List.foldl_cons, ih]
    simp [add_assoc]

/-- C10: `handleAddWater` appends exactly one event carrying the given
(possibly negative) amount and leaves the existing events unchanged; the
daily total is the signed sum over the current virtual day, shifted by
the new amount exactly when the new event buckets to that day; the minus
button is enabled at a displayed total of 100 even though adding the
`-250` it sends drives the day's total to `-150 < 0`. -/
theorem handleAddWater_signed (logs : List WaterLog) (id ts : Nat) (a : ℚ) (day : Nat) :
    handleAddWater logs id ts a = logs ++ [{ id := id, timestamp := ts, amount := a }] ∧
    todayWater (handleAddWater logs id ts a) day =
      todayWater logs day + (if dayKey ts = day then a else 0) ∧
    minusDisabled 100 = false ∧
    todayWater [demoWaterLog] (dayKey 0) = 100 ∧
    todayWater (handleAddWater [demoWaterLog] 1 0 (-250)) (dayKey 0) = -150 ∧
    todayWater (handleAddWater [demoWaterLog] 1 0 (-250)) (dayKey 0) < 0 := by
  have key : ∀ (l : List WaterLog) (i t : Nat) (amt : ℚ) (dy : Nat),
      todayWater (handleAddWater l i t amt) dy =
        todayWater l dy + (if dayKey t = dy then amt else 0) := by
    intro l i t amt dy
    rw [todayWater, handleAddWater, List.filter_append, List.foldl_append]
    rw [water_foldl_amount, water_foldl_amount]
    by_cases h : dayKey t = dy
    · simp [h, todayWater, water_foldl_amount]
    · simp [h, todayWater, water_foldl_amount]
  have base : todayWater [demoWaterLog] (dayKey 0) = 100 := by
    rw [todayWater]
    simp [demoWaterLog]
  have after : todayWater (handleAddWater [demoWaterLog] 1 0 (-250)) (dayKey 0) = -150 := by
    rw [key, base]
    norm_num
  refine ⟨rfl, key logs id ts a day, by decide, base, after, by rw [after]; norm_num⟩

end MealTracker
